import Mathlib

/-!
Shallow embedding of the aksol-dapp transaction submission pipelines.

The repository's pipeline logic lives in four React submit handlers
(PurchaseCard, the simple TaxedSendCard, and the two TaxedSendCard
variants of the networked build), plus the transaction decoder
(src/lib/solanaTx.ts) and the activity log (src/App.tsx logAction).
External collaborators (wallet adapter, web3.js parsers, the fetch
result, the browser Number and atob builtins) are modelled as oracle
records; each handler is a pure function from its inputs and oracles to
a Run trace that records the terminal UI state, the logAction calls and
how many times each collaborator was invoked.
-/

namespace Aksol

/-- Result of the JS `Number(...)` conversion applied to the amount input
field: NaN, an infinity, or a finite value (finite doubles embed in ℚ). -/
inductive JsNumber
  | nan
  | posInf
  | negInf
  | val (q : ℚ)
deriving DecidableEq, Repr

/-- Model of `Number.isFinite` on the modelled value. -/
def JsNumber.isFinite : JsNumber → Bool
  | .val _ => true
  | _ => false

/-- The JS comparison `x <= 0` on the modelled value (`NaN <= 0` is false). -/
def JsNumber.le0 : JsNumber → Bool
  | .nan => false
  | .posInf => false
  | .negInf => true
  | .val q => decide (q ≤ 0)

/-- The connected-wallet handle from `useWallet()`: `connected`,
`publicKey` (null when absent) and whether `signTransaction` is defined. -/
structure Wallet where
  connected : Bool
  publicKey : Option String
  canSignTransaction : Bool
deriving DecidableEq, Repr

/-- JSON body of a backend reply, restricted to the fields the handlers
read. `none` models an absent field; `some ""` a present empty string. -/
structure BackendBody where
  ok : Bool
  error : Option String
  signature : Option String
  txSignature : Option String
  transactionSignature : Option String
  sig : Option String
  transaction : Option String
  tx : Option String
  txBase64 : Option String
  serializedTx : Option String
deriving DecidableEq, Repr

/-- Outcome of the `fetch` call: a thrown transport error, or an HTTP
response with its `ok` flag, status code and parsed JSON body. -/
inductive FetchOutcome
  | thrown (msg : String)
  | response (ok : Bool) (status : Nat) (body : BackendBody)
deriving DecidableEq, Repr

/-- A web3.js `Transaction` object, reduced to the one mutable field the
handlers touch (`feePayer`) plus an opaque payload. -/
structure Tx where
  feePayer : Option String
  payload : List Nat
deriving DecidableEq, Repr

/-- External collaborators of one handler invocation. Each field gives the
behaviour of one non-owned operation during this invocation; `Except`
results model thrown JS errors by their `message`. -/
structure Oracles where
  jsNumber : String → JsNumber
  bufferFromBase64 : String → List Nat
  atobBytes : String → Except String (List Nat)
  legacyFrom : List Nat → Except String Tx
  signTransaction : Tx → Except String Tx
  serializeTx : Tx → List Nat
  sendRawTransaction : List Nat → Except String String
  confirmTransaction : String → Except String Unit
  sendTransaction : Tx → Except String String

/-- One `logAction(label, signature?)` call. -/
structure LogEntry where
  label : String
  signature : Option String
deriving DecidableEq, Repr

/-- Trace of one handler invocation: the final `error` and last-signature
UI state, the `logAction` calls in order, the number of calls made to
fetch, `wallet.signTransaction`, the send primitive and
`connection.confirmTransaction`, and the `Transaction` object handed to
the wallet (if any). -/
structure Run where
  error : Option String
  lastSig : Option String
  logs : List LogEntry
  fetchCalls : Nat
  signCalls : Nat
  sendCalls : Nat
  confirmCalls : Nat
  sentTx : Option Tx
deriving DecidableEq, Repr

/-- JS truthiness of an optional string field (absent and `""` are falsy). -/
def strTruthy : Option String → Bool
  | some s => s != ""
  | none => false

/-- The JS `a || b` on optional string fields. -/
def jsOr (a b : Option String) : Option String :=
  if strTruthy a then a else b

/-- The JS `a || d` where `d` is a string literal default. -/
def jsOrStr (a : Option String) (d : String) : String :=
  match a with
  | some s => if s = "" then d else s
  | none => d

/-- Message computed in the catch blocks: the thrown error's message when
it is a non-empty string, otherwise the handler's default message. -/
def catchMsg (m d : String) : String :=
  if m = "" then d else m

/-- ASCII whitespace recognized by the JS `trim()` builtin. -/
def jsWhitespace (c : Char) : Bool :=
  c == ' ' || c == '\t' || c == '\n' || c == '\r'

/-- Executable model of the JS `trim()` builtin: drop whitespace from
both ends of the character sequence. -/
def jsTrim (s : String) : String :=
  String.mk (((s.data.dropWhile jsWhitespace).reverse.dropWhile
    jsWhitespace).reverse)

/-! ## PurchaseCard.handleSubmit (src/components/PurchaseCard.tsx) -/

/-- Failure outcome of PurchaseCard's catch block: computes the message,
sets the error state and logs `0% purchase failed: <msg>`. -/
def purchaseFail (m : String) (fc sc bc cc : Nat) (st : Option Tx) : Run :=
  let msg := catchMsg m "0% purchase failed."
  { error := some msg, lastSig := none,
    logs := [⟨"0% purchase failed: " ++ msg, none⟩],
    fetchCalls := fc, signCalls := sc, sendCalls := bc, confirmCalls := cc,
    sentTx := st }

/-- The try block of PurchaseCard.handleSubmit, entered after validation:
fetch, `!json.ok || !json.transaction` check, `Transaction.from`, set
`feePayer` to the wallet key, sign, send raw, confirm, then record
success; every thrown error lands in `purchaseFail`. -/
def purchaseTryBlock (w : Wallet) (f : FetchOutcome) (o : Oracles) : Run :=
  match f with
  | .thrown m => purchaseFail m 1 0 0 0 none
  | .response respOk status body =>
    if !respOk then
      purchaseFail ("Backend HTTP " ++ toString status) 1 0 0 0 none
    else if !body.ok || !strTruthy body.transaction then
      purchaseFail (jsOrStr body.error "Backend did not return a transaction.")
        1 0 0 0 none
    else
      match o.legacyFrom (o.bufferFromBase64 (body.transaction.getD "")) with
      | .error m => purchaseFail m 1 0 0 0 none
      | .ok tx0 =>
        match o.signTransaction { tx0 with feePayer := w.publicKey } with
        | .error m => purchaseFail m 1 1 0 0 (some { tx0 with feePayer := w.publicKey })
        | .ok signed =>
          match o.sendRawTransaction (o.serializeTx signed) with
          | .error m => purchaseFail m 1 1 1 0 (some { tx0 with feePayer := w.publicKey })
          | .ok sigVal =>
            match o.confirmTransaction sigVal with
            | .error m => purchaseFail m 1 1 1 1 (some { tx0 with feePayer := w.publicKey })
            | .ok _ =>
              { error := none, lastSig := some sigVal,
                logs := [⟨"0% route purchase submitted", some sigVal⟩],
                fetchCalls := 1, signCalls := 1, sendCalls := 1,
                confirmCalls := 1, sentTx := some { tx0 with feePayer := w.publicKey } }

/-- PurchaseCard.handleSubmit: wallet-connection and signing-capability
checks (each logs a failure), then the amount check (sets the error but
does not log), then the try block. -/
def purchaseHandleSubmit (w : Wallet) (amount : String)
    (f : FetchOutcome) (o : Oracles) : Run :=
  if !w.connected || w.publicKey.isNone then
    { error := some "Connect a wallet before using the 0% route.",
      lastSig := none,
      logs := [⟨"0% purchase failed: no wallet connected", none⟩],
      fetchCalls := 0, signCalls := 0, sendCalls := 0, confirmCalls := 0,
      sentTx := none }
  else if !w.canSignTransaction then
    { error := some "Current wallet does not support transaction signing.",
      lastSig := none,
      logs := [⟨"0% purchase failed: wallet cannot sign", none⟩],
      fetchCalls := 0, signCalls := 0, sendCalls := 0, confirmCalls := 0,
      sentTx := none }
  else
    if !(o.jsNumber amount).isFinite || (o.jsNumber amount).le0 then
      { error := some "Amount must be a positive number.", lastSig := none,
        logs := [],
        fetchCalls := 0, signCalls := 0, sendCalls := 0, confirmCalls := 0,
        sentTx := none }
    else
      purchaseTryBlock w f o

/-! ## TaxedSendCard.handleSubmit (simple variant, src/components) -/

/-- Failure outcome of the simple TaxedSendCard's catch block. -/
def taxedFail (m : String) (fc sc bc cc : Nat) (st : Option Tx) : Run :=
  let msg := catchMsg m "Taxed send failed."
  { error := some msg, lastSig := none,
    logs := [⟨"Taxed send failed: " ++ msg, none⟩],
    fetchCalls := fc, signCalls := sc, sendCalls := bc, confirmCalls := cc,
    sentTx := st }

/-- The try block of the simple TaxedSendCard.handleSubmit: identical
structure to PurchaseCard's, with the taxed-send messages. -/
def taxedTryBlock (w : Wallet) (f : FetchOutcome) (o : Oracles) : Run :=
  match f with
  | .thrown m => taxedFail m 1 0 0 0 none
  | .response respOk status body =>
    if !respOk then
      taxedFail ("Backend HTTP " ++ toString status) 1 0 0 0 none
    else if !body.ok || !strTruthy body.transaction then
      taxedFail (jsOrStr body.error "Backend did not return a transaction.")
        1 0 0 0 none
    else
      match o.legacyFrom (o.bufferFromBase64 (body.transaction.getD "")) with
      | .error m => taxedFail m 1 0 0 0 none
      | .ok tx0 =>
        match o.signTransaction { tx0 with feePayer := w.publicKey } with
        | .error m => taxedFail m 1 1 0 0 (some { tx0 with feePayer := w.publicKey })
        | .ok signed =>
          match o.sendRawTransaction (o.serializeTx signed) with
          | .error m => taxedFail m 1 1 1 0 (some { tx0 with feePayer := w.publicKey })
          | .ok sigVal =>
            match o.confirmTransaction sigVal with
            | .error m => taxedFail m 1 1 1 1 (some { tx0 with feePayer := w.publicKey })
            | .ok _ =>
              { error := none, lastSig := some sigVal,
                logs := [⟨"Taxed send submitted", some sigVal⟩],
                fetchCalls := 1, signCalls := 1, sendCalls := 1,
                confirmCalls := 1, sentTx := some { tx0 with feePayer := w.publicKey } }

/-- The simple TaxedSendCard.handleSubmit: wallet checks (logged), then
the trimmed-recipient check, then the amount check (both unlogged), then
the try block. -/
def taxedHandleSubmit (w : Wallet) (toAddress amount : String)
    (f : FetchOutcome) (o : Oracles) : Run :=
  if !w.connected || w.publicKey.isNone then
    { error := some "Connect a wallet before sending with tax.",
      lastSig := none,
      logs := [⟨"Taxed send failed: no wallet connected", none⟩],
      fetchCalls := 0, signCalls := 0, sendCalls := 0, confirmCalls := 0,
      sentTx := none }
  else if !w.canSignTransaction then
    { error := some "Current wallet does not support transaction signing.",
      lastSig := none,
      logs := [⟨"Taxed send failed: wallet cannot sign", none⟩],
      fetchCalls := 0, signCalls := 0, sendCalls := 0, confirmCalls := 0,
      sentTx := none }
  else
    if jsTrim toAddress == "" then
      { error := some "Please enter a recipient address.", lastSig := none,
        logs := [],
        fetchCalls := 0, signCalls := 0, sendCalls := 0, confirmCalls := 0,
        sentTx := none }
    else if !(o.jsNumber amount).isFinite || (o.jsNumber amount).le0 then
      { error := some "Amount must be a positive number.", lastSig := none,
        logs := [],
        fetchCalls := 0, signCalls := 0, sendCalls := 0, confirmCalls := 0,
        sentTx := none }
    else
      taxedTryBlock w f o

/-! ## TaxedSendCard.handleSubmit (networked variant 1) -/

/-- Label used by the networked TaxedSendCard variants on success. -/
def modeLabel (isMainnet : Bool) : String :=
  if isMainnet then "MAINNET" else "devnet"

/-- The `data.signature || data.txSignature || data.transactionSignature
|| data.sig` chain of variant 1 (CASE A). -/
def sigChainV1 (body : BackendBody) : Option String :=
  jsOr body.signature
    (jsOr body.txSignature (jsOr body.transactionSignature body.sig))

/-- The `data.transaction || data.tx || data.txBase64 || data.serializedTx`
chain shared by both networked variants (CASE B). -/
def txChain (body : BackendBody) : Option String :=
  jsOr body.transaction (jsOr body.tx (jsOr body.txBase64 body.serializedTx))

/-- The try block of networked TaxedSendCard variant 1: fetch; if the
signature chain is truthy the handler records success and returns at
once (CASE A); otherwise it requires the transaction chain, parses with
`Transaction.from`, sets `feePayer`, signs, sends raw and confirms. -/
def taxedV1TryBlock (w : Wallet) (isMainnet : Bool) (f : FetchOutcome)
    (o : Oracles) : Run :=
  match f with
  | .thrown m => taxedFail m 1 0 0 0 none
  | .response respOk status body =>
    if !respOk then
      taxedFail ("Backend HTTP " ++ toString status) 1 0 0 0 none
    else
      if strTruthy (sigChainV1 body) then
        { error := none, lastSig := sigChainV1 body,
          logs := [⟨"Taxed send (" ++ modeLabel isMainnet ++ ")",
                    sigChainV1 body⟩],
          fetchCalls := 1, signCalls := 0, sendCalls := 0, confirmCalls := 0,
          sentTx := none }
      else
        if !strTruthy (txChain body) then
          taxedFail
            "Backend did not return a signature or transaction. Check console logs for full response."
            1 0 0 0 none
        else
          match o.legacyFrom (o.bufferFromBase64 ((txChain body).getD "")) with
          | .error m => taxedFail m 1 0 0 0 none
          | .ok tx0 =>
            match o.signTransaction { tx0 with feePayer := w.publicKey } with
            | .error m =>
              taxedFail m 1 1 0 0 (some { tx0 with feePayer := w.publicKey })
            | .ok signed =>
              match o.sendRawTransaction (o.serializeTx signed) with
              | .error m =>
                taxedFail m 1 1 1 0 (some { tx0 with feePayer := w.publicKey })
              | .ok sigVal =>
                match o.confirmTransaction sigVal with
                | .error m =>
                  taxedFail m 1 1 1 1 (some { tx0 with feePayer := w.publicKey })
                | .ok _ =>
                  { error := none, lastSig := some sigVal,
                    logs := [⟨"Taxed send (" ++ modeLabel isMainnet ++ ")",
                              some sigVal⟩],
                    fetchCalls := 1, signCalls := 1, sendCalls := 1,
                    confirmCalls := 1,
                    sentTx := some { tx0 with feePayer := w.publicKey } }

/-- Networked TaxedSendCard variant 1 handleSubmit: wallet checks
(logged), amount check, then the `!toAddress || trim length < 8`
recipient check (both unlogged), then the try block. -/
def taxedV1HandleSubmit (w : Wallet) (isMainnet : Bool)
    (toAddress amountUi : String) (f : FetchOutcome) (o : Oracles) : Run :=
  if !w.connected || w.publicKey.isNone then
    { error := some "Connect a wallet before sending with tax.",
      lastSig := none,
      logs := [⟨"Taxed send failed: no wallet connected", none⟩],
      fetchCalls := 0, signCalls := 0, sendCalls := 0, confirmCalls := 0,
      sentTx := none }
  else if !w.canSignTransaction then
    { error := some "Current wallet does not support transaction signing.",
      lastSig := none,
      logs := [⟨"Taxed send failed: wallet cannot sign", none⟩],
      fetchCalls := 0, signCalls := 0, sendCalls := 0, confirmCalls := 0,
      sentTx := none }
  else
    if !(o.jsNumber amountUi).isFinite || (o.jsNumber amountUi).le0 then
      { error := some "Amount must be a positive number.", lastSig := none,
        logs := [],
        fetchCalls := 0, signCalls := 0, sendCalls := 0, confirmCalls := 0,
        sentTx := none }
    else if toAddress == "" || decide ((jsTrim toAddress).length < 8) then
      { error := some "AKSOL recipient address looks incomplete.",
        lastSig := none, logs := [],
        fetchCalls := 0, signCalls := 0, sendCalls := 0, confirmCalls := 0,
        sentTx := none }
    else
      taxedV1TryBlock w isMainnet f o

/-! ## TaxedSendCard.handleSubmit (networked variant 2) -/

/-- The `data.signature || data.txSignature || data.transactionSignature`
chain of variant 2 (no `data.sig` alias). -/
def sigChainV2 (body : BackendBody) : Option String :=
  jsOr body.signature (jsOr body.txSignature body.transactionSignature)

/-- The try block of networked TaxedSendCard variant 2: fetch; when the
signature chain is falsy it requires the transaction chain, decodes the
base64 with the atob helper, parses with `Transaction.from` and hands
the transaction unchanged to `wallet.sendTransaction`; in all success
cases it then records the signature once. No confirmation wait exists in
this variant. -/
def taxedV2TryBlock (isMainnet : Bool) (f : FetchOutcome) (o : Oracles) :
    Run :=
  match f with
  | .thrown m => taxedFail m 1 0 0 0 none
  | .response respOk status body =>
    if !respOk then
      taxedFail ("Backend HTTP " ++ toString status) 1 0 0 0 none
    else
      if !strTruthy (sigChainV2 body) then
        if !strTruthy (txChain body) then
          taxedFail
            "Backend did not return a signature or transaction. Check server logs."
            1 0 0 0 none
        else
          match o.atobBytes ((txChain body).getD "") with
          | .error m => taxedFail m 1 0 0 0 none
          | .ok rawTx =>
            match o.legacyFrom rawTx with
            | .error m => taxedFail m 1 0 0 0 none
            | .ok txObj =>
              match o.sendTransaction txObj with
              | .error m => taxedFail m 1 0 1 0 (some txObj)
              | .ok sigVal =>
                { error := none, lastSig := some sigVal,
                  logs := [⟨"Taxed send (" ++ modeLabel isMainnet ++ ")",
                            some sigVal⟩],
                  fetchCalls := 1, signCalls := 0, sendCalls := 1,
                  confirmCalls := 0, sentTx := some txObj }
      else
        { error := none, lastSig := sigChainV2 body,
          logs := [⟨"Taxed send (" ++ modeLabel isMainnet ++ ")",
                    sigChainV2 body⟩],
          fetchCalls := 1, signCalls := 0, sendCalls := 0, confirmCalls := 0,
          sentTx := none }

/-- Networked TaxedSendCard variant 2 handleSubmit: backend-URL and
wallet checks (logged), the raw `!toAddress || !amountUi` check and the
amount check (unlogged), then the try block. -/
def taxedV2HandleSubmit (backendBaseUrl walletPublicKey : Option String)
    (isMainnet : Bool) (toAddress amountUi : String) (f : FetchOutcome)
    (o : Oracles) : Run :=
  if !strTruthy backendBaseUrl then
    { error := some "Backend URL is not configured.", lastSig := none,
      logs := [⟨"Taxed send failed: backend URL not set", none⟩],
      fetchCalls := 0, signCalls := 0, sendCalls := 0, confirmCalls := 0,
      sentTx := none }
  else if !strTruthy walletPublicKey then
    { error := some "Connect a wallet before using the taxed send route.",
      lastSig := none,
      logs := [⟨"Taxed send failed: no wallet connected", none⟩],
      fetchCalls := 0, signCalls := 0, sendCalls := 0, confirmCalls := 0,
      sentTx := none }
  else if toAddress == "" || amountUi == "" then
    { error := some "Enter a destination address and amount.",
      lastSig := none, logs := [],
      fetchCalls := 0, signCalls := 0, sendCalls := 0, confirmCalls := 0,
      sentTx := none }
  else
    if !(o.jsNumber amountUi).isFinite || (o.jsNumber amountUi).le0 then
      { error := some "Amount must be a positive number.", lastSig := none,
        logs := [],
        fetchCalls := 0, signCalls := 0, sendCalls := 0, confirmCalls := 0,
        sentTx := none }
    else
      taxedV2TryBlock isMainnet f o

/-! ## EnvelopeDecoder (src/lib/solanaTx.ts) -/

/-- The two recognized transaction container formats of
`decodeTransaction`. -/
inductive AnyTransaction
  | legacy (t : Tx)
  | versioned (v : Tx)
deriving DecidableEq, Repr

/-- External parsers used by `decodeTransaction`: the browser `atob`
builtin (thrown error modelled by its message) and the two web3.js
deserializers. -/
structure DecOracles where
  atobFn : String → Except String (List Nat)
  versionedDeserialize : List Nat → Except String Tx
  legacyFrom : List Nat → Except String Tx

/-- Model of `base64ToUint8Array`: `atob` then the charCodeAt loop, which copies
the binary string byte for byte. -/
def base64ToUint8Array (d : DecOracles) (b64 : String) :
    Except String (List Nat) :=
  match d.atobFn b64 with
  | .error e => .error e
  | .ok binary => .ok binary

/-- Model of `decodeTransaction`: base64-decode, try
`VersionedTransaction.deserialize` first, and on any failure of it fall
back to legacy `Transaction.from`; a legacy failure propagates. -/
def decodeTransaction (d : DecOracles) (b64 : String) :
    Except String AnyTransaction :=
  match base64ToUint8Array d b64 with
  | .error e => .error e
  | .ok bytes =>
    match d.versionedDeserialize bytes with
    | .ok v => .ok (.versioned v)
    | .error _ =>
      match d.legacyFrom bytes with
      | .ok t => .ok (.legacy t)
      | .error e => .error e

/-! ## ActivityLog (src/App.tsx) -/

/-- One record of the recent-activity log. -/
structure ActivityItem where
  id : String
  label : String
  timestamp : String
  signature : Option String
deriving DecidableEq, Repr

/-- Model of `logAction`: `setActivities((prev) => [item, ...prev]
.slice(0, 3))` — prepend the new record and keep only the first 3. -/
def logAction (item : ActivityItem) (prev : List ActivityItem) :
    List ActivityItem :=
  (item :: prev).take 3

/-! ## Concrete fixtures used to evaluate the pipelines -/

/-- A backend body with `ok: true` and every optional field absent. -/
def emptyBody : BackendBody :=
  { ok := true, error := none, signature := none, txSignature := none,
    transactionSignature := none, sig := none, transaction := none,
    tx := none, txBase64 := none, serializedTx := none }

/-- Collaborators that all succeed: the amount parses to 1, parsing
yields a fee-payer-free transaction, signing returns its argument, the
network assigns the signature `NETSIG` and confirmation succeeds. -/
def okOracles : Oracles :=
  { jsNumber := fun _ => .val 1,
    bufferFromBase64 := fun _ => [0],
    atobBytes := fun _ => .ok [0],
    legacyFrom := fun _ => .ok ⟨none, [0]⟩,
    signTransaction := fun t => .ok t,
    serializeTx := fun t => t.payload,
    sendRawTransaction := fun _ => .ok "NETSIG",
    confirmTransaction := fun _ => .ok (),
    sendTransaction := fun _ => .ok "NETSIG" }

/-- The three PurchaseCard messages produced by fail-fast validation
(all classified `InvalidInput` by the spec taxonomy). -/
def purchaseInvalidMsgs : List String :=
  ["Connect a wallet before using the 0% route.",
   "Current wallet does not support transaction signing.",
   "Amount must be a positive number."]

/-- The four simple-TaxedSendCard messages produced by fail-fast
validation (all classified `InvalidInput` by the spec taxonomy). -/
def taxedInvalidMsgs : List String :=
  ["Connect a wallet before sending with tax.",
   "Current wallet does not support transaction signing.",
   "Please enter a recipient address.",
   "Amount must be a positive number."]

/-- Collaborators identical to `okOracles` except the amount does not
parse (`Number` yields NaN). -/
def nanOracles : Oracles :=
  { okOracles with jsNumber := fun _ => JsNumber.nan }

/-- Collaborators identical to `okOracles` except confirmation fails
(the bounded wait elapsed). -/
def timeoutOracles : Oracles :=
  { okOracles with
    confirmTransaction := fun _ => .error "Transaction was not confirmed" }

/-- Collaborators identical to `okOracles` except the parsed legacy
transaction carries the backend's fee payer. -/
def backendPayerOracles : Oracles :=
  { okOracles with legacyFrom := fun _ => .ok ⟨some "BACKEND", [1, 2]⟩ }

/-- A success body carrying only a serialized transaction envelope. -/
def backendTxBody : BackendBody :=
  { emptyBody with transaction := some "QUJD" }

/-- A success body whose only populated field is `signature: "SIG123"`. -/
def sigBody : BackendBody :=
  { emptyBody with signature := some "SIG123" }

/-- A success body whose `signature` field is present but equal to the
empty string. -/
def emptySigBody : BackendBody :=
  { emptyBody with signature := some "" }

/-! ## Theorems -/

/-- Claim C8: the activity log holds at most 3 records, ordered
newest-first; `logAction` inserts the new record at the front, keeps the
whole previous list while fewer than 3 records exist, and silently
evicts the oldest records once the capacity of 3 is exceeded. -/
theorem activityLog_capacity_newest_first (item : ActivityItem)
    (prev : List ActivityItem) :
    (logAction item prev).length ≤ 3 ∧
    (logAction item prev).head? = some item ∧
    (prev.length ≤ 2 → logAction item prev = item :: prev) ∧
    (2 < prev.length → logAction item prev = item :: prev.take 2) := by
  unfold logAction
  refine ⟨?_, ?_, ?_, ?_⟩
  · simp
  · rw [List.take_succ_cons]
    rfl
  · intro h
    rw [List.take_succ_cons, List.take_of_length_le h]
  · intro _
    rw [List.take_succ_cons]

/-- Claim C8 witness: appending to a full log of 3 keeps the cap and
evicts exactly the oldest record. -/
theorem activityLog_capacity_newest_first_witness :
    2 < ([⟨"i3", "c", "t3", none⟩, ⟨"i2", "b", "t2", none⟩,
          ⟨"i1", "a", "t1", none⟩] : List ActivityItem).length ∧
    logAction ⟨"i4", "d", "t4", none⟩
        [⟨"i3", "c", "t3", none⟩, ⟨"i2", "b", "t2", none⟩,
         ⟨"i1", "a", "t1", none⟩] =
      [⟨"i4", "d", "t4", none⟩, ⟨"i3", "c", "t3", none⟩,
       ⟨"i2", "b", "t2", none⟩] := by
  refine ⟨by decide, ?_⟩
  have h := activityLog_capacity_newest_first ⟨"i4", "d", "t4", none⟩
    [⟨"i3", "c", "t3", none⟩, ⟨"i2", "b", "t2", none⟩, ⟨"i1", "a", "t1", none⟩]
  exact h.2.2.2 (by decide)

/-- Claim C7: `decodeTransaction` first base64-decodes to bytes, then
tries the versioned format; on any versioned parse failure it tries the
legacy format; it fails only when the base64 decoding fails or both
parses fail; and a successful versioned parse is authoritative — the
result does not depend on the legacy parser at all in that case. -/
theorem decodeTransaction_versioned_first (d : DecOracles) (b64 : String) :
    (∀ e, d.atobFn b64 = .error e → decodeTransaction d b64 = .error e) ∧
    (∀ bytes v, d.atobFn b64 = .ok bytes →
      d.versionedDeserialize bytes = .ok v →
      decodeTransaction d b64 = .ok (.versioned v)) ∧
    (∀ bytes e t, d.atobFn b64 = .ok bytes →
      d.versionedDeserialize bytes = .error e →
      d.legacyFrom bytes = .ok t →
      decodeTransaction d b64 = .ok (.legacy t)) ∧
    (∀ e, decodeTransaction d b64 = .error e →
      d.atobFn b64 = .error e ∨
      ∃ bytes e1, d.atobFn b64 = .ok bytes ∧
        d.versionedDeserialize bytes = .error e1 ∧
        d.legacyFrom bytes = .error e) ∧
    (∀ d2 : DecOracles, d2.atobFn = d.atobFn →
      d2.versionedDeserialize = d.versionedDeserialize →
      (∃ bytes v, d.atobFn b64 = .ok bytes ∧
        d.versionedDeserialize bytes = .ok v) →
      decodeTransaction d2 b64 = decodeTransaction d b64) := by
  refine ⟨?_, ?_, ?_, ?_, ?_⟩
  · intro e h
    simp [decodeTransaction, base64ToUint8Array, h]
  · intro bytes v h hv
    simp [decodeTransaction, base64ToUint8Array, h, hv]
  · intro bytes e t h hv hl
    simp [decodeTransaction, base64ToUint8Array, h, hv, hl]
  · intro e h
    cases ha : d.atobFn b64 with
    | error e0 =>
      left
      simp [decodeTransaction, base64ToUint8Array, ha] at h
      rw [h]
    | ok bytes =>
      right
      refine ⟨bytes, ?_⟩
      cases hv : d.versionedDeserialize bytes with
      | error e1 =>
        refine ⟨e1, rfl, rfl, ?_⟩
        cases hl : d.legacyFrom bytes with
        | error e2 =>
          simp [decodeTransaction, base64ToUint8Array, ha, hv, hl] at h
          rw [h]
        | ok t =>
          simp [decodeTransaction, base64ToUint8Array, ha, hv, hl] at h
      | ok v =>
        simp [decodeTransaction, base64ToUint8Array, ha, hv] at h
  · intro d2 hatob hvers hex
    obtain ⟨bytes, v, ha, hv⟩ := hex
    simp [decodeTransaction, base64ToUint8Array, hatob, hvers, ha, hv]

/-- Claim C7 witness: with a decoder whose versioned parse succeeds and
whose legacy parse would also succeed (with a different result), the
versioned result is returned. -/
theorem decodeTransaction_versioned_first_witness :
    decodeTransaction
      { atobFn := fun _ => .ok [1, 2],
        versionedDeserialize := fun _ => .ok ⟨none, [1]⟩,
        legacyFrom := fun _ => .ok ⟨none, [2]⟩ } "QUJD" =
      .ok (.versioned ⟨none, [1]⟩) :=
  (decodeTransaction_versioned_first
    { atobFn := fun _ => .ok [1, 2],
      versionedDeserialize := fun _ => .ok ⟨none, [1]⟩,
      legacyFrom := fun _ => .ok ⟨none, [2]⟩ } "QUJD").2.1 [1, 2] ⟨none, [1]⟩
    rfl rfl

/-- Claim C4: whenever `Number(amount)` is non-finite or `<= 0`, both
cited handlers terminate with a fail-fast validation failure (a message
in the `InvalidInput` family), make no network call, and report no
success signature. -/
theorem invalid_amount_no_network (w : Wallet) (toAddress amount : String)
    (f : FetchOutcome) (o : Oracles)
    (h : (!(o.jsNumber amount).isFinite || (o.jsNumber amount).le0) = true) :
    ((purchaseHandleSubmit w amount f o).fetchCalls = 0 ∧
      (purchaseHandleSubmit w amount f o).lastSig = none ∧
      ∃ m ∈ purchaseInvalidMsgs,
        (purchaseHandleSubmit w amount f o).error = some m) ∧
    ((taxedHandleSubmit w toAddress amount f o).fetchCalls = 0 ∧
      (taxedHandleSubmit w toAddress amount f o).lastSig = none ∧
      ∃ m ∈ taxedInvalidMsgs,
        (taxedHandleSubmit w toAddress amount f o).error = some m) := by
  constructor
  · unfold purchaseHandleSubmit
    split
    · exact ⟨rfl, rfl, "Connect a wallet before using the 0% route.",
        by simp [purchaseInvalidMsgs], rfl⟩
    · split
      · exact ⟨rfl, rfl, "Current wallet does not support transaction signing.",
          by simp [purchaseInvalidMsgs], rfl⟩
      · exact ⟨rfl, rfl, "Amount must be a positive number.",
          by simp [purchaseInvalidMsgs], rfl⟩
  · unfold taxedHandleSubmit
    split
    · exact ⟨rfl, rfl, "Connect a wallet before sending with tax.",
        by simp [taxedInvalidMsgs], rfl⟩
    · split
      · exact ⟨rfl, rfl, "Current wallet does not support transaction signing.",
          by simp [taxedInvalidMsgs], rfl⟩
      · split
        · exact ⟨rfl, rfl, "Please enter a recipient address.",
            by simp [taxedInvalidMsgs], rfl⟩
        · exact ⟨rfl, rfl, "Amount must be a positive number.",
            by simp [taxedInvalidMsgs], rfl⟩

/-- Claim C4 witness: with a NaN amount and an otherwise valid
environment, both handlers make zero fetch calls and fail with the
amount validation message. -/
theorem invalid_amount_no_network_witness :
    (!((({ okOracles with jsNumber := fun _ => JsNumber.nan } :
          Oracles).jsNumber "abc").isFinite) ||
      (({ okOracles with jsNumber := fun _ => JsNumber.nan } :
          Oracles).jsNumber "abc").le0) = true ∧
    (purchaseHandleSubmit ⟨true, some "W1", true⟩ "abc"
      (.response true 200 emptyBody)
      { okOracles with jsNumber := fun _ => JsNumber.nan }).fetchCalls = 0 := by
  refine ⟨by decide, ?_⟩
  exact (invalid_amount_no_network ⟨true, some "W1", true⟩ "Wallet2XYZ" "abc"
    (.response true 200 emptyBody)
    { okOracles with jsNumber := fun _ => JsNumber.nan } (by decide)).1.1

/-- Claim C5: when the backend response of networked TaxedSendCard
variant 1 carries a truthy signature (Broadcasted), the handler never
calls `wallet.signTransaction`, never broadcasts, and hands no
transaction to the wallet — for any intent, valid ones included. -/
theorem broadcasted_never_signs (w : Wallet) (isMainnet : Bool)
    (toAddress amountUi : String) (status : Nat) (body : BackendBody)
    (o : Oracles)
    (hsig : strTruthy (sigChainV1 body) = true) :
    (taxedV1HandleSubmit w isMainnet toAddress amountUi
        (.response true status body) o).signCalls = 0 ∧
    (taxedV1HandleSubmit w isMainnet toAddress amountUi
        (.response true status body) o).sendCalls = 0 ∧
    (taxedV1HandleSubmit w isMainnet toAddress amountUi
        (.response true status body) o).sentTx = none := by
  unfold taxedV1HandleSubmit
  split
  · exact ⟨rfl, rfl, rfl⟩
  · split
    · exact ⟨rfl, rfl, rfl⟩
    · split
      · exact ⟨rfl, rfl, rfl⟩
      · split
        · exact ⟨rfl, rfl, rfl⟩
        · simp [taxedV1TryBlock, hsig]

/-- Claim C5 witness: a valid intent with a Broadcasted response makes
zero `signTransaction` calls. -/
theorem broadcasted_never_signs_witness :
    strTruthy (sigChainV1 sigBody) = true ∧
    (taxedV1HandleSubmit ⟨true, some "Wallet1", true⟩ false "Wallet2XYZ"
        "0.5" (.response true 200 sigBody) okOracles).signCalls = 0 :=
  ⟨by decide,
    (broadcasted_never_signs ⟨true, some "Wallet1", true⟩ false "Wallet2XYZ"
      "0.5" 200 sigBody okOracles (by decide)).1⟩

/-- Claim C6: a well-formed HTTP success response that lacks every
signature alias and every transaction alias makes networked variant 1
fail with its missing-payload (contract violation) message, with zero
signing attempts and no success signature; PurchaseCard likewise fails
before any signing when `transaction` is absent. -/
theorem missing_fields_contract_violation (w : Wallet) (isMainnet : Bool)
    (toAddress amountUi amount : String) (status status2 : Nat)
    (body body2 : BackendBody) (o : Oracles)
    (h1 : (!w.connected || w.publicKey.isNone) = false)
    (h2 : w.canSignTransaction = true)
    (h3 : (!(o.jsNumber amountUi).isFinite || (o.jsNumber amountUi).le0) = false)
    (h4 : (toAddress == "" || decide ((jsTrim toAddress).length < 8)) = false)
    (hs1 : body.signature = none) (hs2 : body.txSignature = none)
    (hs3 : body.transactionSignature = none) (hs4 : body.sig = none)
    (ht1 : body.transaction = none) (ht2 : body.tx = none)
    (ht3 : body.txBase64 = none) (ht4 : body.serializedTx = none)
    (h5 : (!(o.jsNumber amount).isFinite || (o.jsNumber amount).le0) = false)
    (hok2 : body2.ok = true) (ht5 : body2.transaction = none)
    (he2 : body2.error = none) :
    ((taxedV1HandleSubmit w isMainnet toAddress amountUi
        (.response true status body) o).error =
      some "Backend did not return a signature or transaction. Check console logs for full response." ∧
      (taxedV1HandleSubmit w isMainnet toAddress amountUi
        (.response true status body) o).signCalls = 0 ∧
      (taxedV1HandleSubmit w isMainnet toAddress amountUi
        (.response true status body) o).lastSig = none) ∧
    ((purchaseHandleSubmit w amount (.response true status2 body2) o).error =
      some "Backend did not return a transaction." ∧
      (purchaseHandleSubmit w amount (.response true status2 body2) o).signCalls = 0 ∧
      (purchaseHandleSubmit w amount (.response true status2 body2) o).lastSig = none) := by
  constructor
  · simp only [taxedV1HandleSubmit, h1, h2, h3, h4, Bool.not_true,
      Bool.false_eq_true, if_false]
    simp [taxedV1TryBlock, sigChainV1, txChain, jsOr, strTruthy,
      hs1, hs2, hs3, hs4, ht1, ht2, ht3, ht4, taxedFail, catchMsg]
  · simp only [purchaseHandleSubmit, h1, h2, h5, Bool.not_true,
      Bool.false_eq_true, if_false]
    simp [purchaseTryBlock, strTruthy, ht5, hok2, he2, purchaseFail,
      catchMsg, jsOrStr]

/-- Claim C6 witness: an empty success body yields the missing-payload
failure with zero signing attempts in variant 1. -/
theorem missing_fields_contract_violation_witness :
    emptyBody.signature = none ∧ emptyBody.transaction = none ∧
    (taxedV1HandleSubmit ⟨true, some "Wallet1", true⟩ false "Wallet2XYZ"
        "0.5" (.response true 200 emptyBody) okOracles).error =
      some "Backend did not return a signature or transaction. Check console logs for full response." ∧
    (taxedV1HandleSubmit ⟨true, some "Wallet1", true⟩ false "Wallet2XYZ"
        "0.5" (.response true 200 emptyBody) okOracles).signCalls = 0 := by
  have h := missing_fields_contract_violation ⟨true, some "Wallet1", true⟩
    false "Wallet2XYZ" "0.5" "0.5" 200 200 emptyBody emptyBody okOracles
    (by decide) (by decide) (by decide) (by decide) rfl rfl rfl rfl rfl rfl
    rfl rfl (by decide) rfl rfl rfl
  exact ⟨rfl, rfl, h.1.1, h.1.2.1⟩

/-- Claim C10: response-shape discrimination uses truthiness, not field
presence. A success body whose `signature` field is present but empty
behaves exactly like one with no `signature` field at all, in both
networked variants; and when no transaction alias is present either,
variant 1 fails with its missing-payload message instead of treating
the empty string as the terminal identifier. -/
theorem empty_signature_not_fast_path (w : Wallet)
    (burl wpk : Option String) (isMainnet : Bool)
    (toAddress amountUi : String) (status : Nat) (body : BackendBody)
    (o : Oracles) (hsig : body.signature = some "") :
    (taxedV1HandleSubmit w isMainnet toAddress amountUi
        (.response true status body) o =
      taxedV1HandleSubmit w isMainnet toAddress amountUi
        (.response true status { body with signature := none }) o) ∧
    (taxedV2HandleSubmit burl wpk isMainnet toAddress amountUi
        (.response true status body) o =
      taxedV2HandleSubmit burl wpk isMainnet toAddress amountUi
        (.response true status { body with signature := none }) o) ∧
    (body.txSignature = none → body.transactionSignature = none →
      body.sig = none → body.transaction = none → body.tx = none →
      body.txBase64 = none → body.serializedTx = none →
      (!w.connected || w.publicKey.isNone) = false →
      w.canSignTransaction = true →
      (!(o.jsNumber amountUi).isFinite || (o.jsNumber amountUi).le0) = false →
      (toAddress == "" || decide ((jsTrim toAddress).length < 8)) = false →
      (taxedV1HandleSubmit w isMainnet toAddress amountUi
          (.response true status body) o).error =
        some "Backend did not return a signature or transaction. Check console logs for full response." ∧
      (taxedV1HandleSubmit w isMainnet toAddress amountUi
          (.response true status body) o).lastSig = none) := by
  refine ⟨?_, ?_, ?_⟩
  · unfold taxedV1HandleSubmit
    split
    · rfl
    · split
      · rfl
      · split
        · rfl
        · split
          · rfl
          · simp [taxedV1TryBlock, sigChainV1, txChain, jsOr, strTruthy, hsig]
  · unfold taxedV2HandleSubmit
    split
    · rfl
    · split
      · rfl
      · split
        · rfl
        · split
          · rfl
          · simp [taxedV2TryBlock, sigChainV2, txChain, jsOr, strTruthy, hsig]
  · intro hs2 hs3 hs4 ht1 ht2 ht3 ht4 h1 h2 h3 h4
    simp only [taxedV1HandleSubmit, h1, h2, h3, h4, Bool.not_true,
      Bool.false_eq_true, if_false]
    simp [taxedV1TryBlock, sigChainV1, txChain, jsOr, strTruthy, hsig,
      hs2, hs3, hs4, ht1, ht2, ht3, ht4, taxedFail, catchMsg]

/-- Claim C10 witness: with `signature: ""` and no other payload field,
variant 1 fails with the missing-payload message and records no terminal
signature. -/
theorem empty_signature_not_fast_path_witness :
    emptySigBody.signature = some "" ∧
    (taxedV1HandleSubmit ⟨true, some "Wallet1", true⟩ false "Wallet2XYZ"
        "0.5" (.response true 200 emptySigBody) okOracles).error =
      some "Backend did not return a signature or transaction. Check console logs for full response." ∧
    (taxedV1HandleSubmit ⟨true, some "Wallet1", true⟩ false "Wallet2XYZ"
        "0.5" (.response true 200 emptySigBody) okOracles).lastSig = none := by
  have h := (empty_signature_not_fast_path ⟨true, some "Wallet1", true⟩
    (some "http://backend") (some "WALLETPK") false "Wallet2XYZ" "0.5" 200
    emptySigBody okOracles rfl).2.2 rfl rfl rfl rfl rfl rfl rfl (by decide)
    (by decide) (by decide) (by decide)
  exact ⟨rfl, h.1, h.2⟩

/-- Claim C1 counterexample: a valid intent with a Broadcasted response
(`signature: "SIG123"`) makes variant 1 declare success immediately —
`confirmTransaction` is called zero times before success, contradicting
the claim that the Confirming step is still performed. -/
theorem fast_path_confirming_counterexample :
    (taxedV1HandleSubmit ⟨true, some "Wallet1", true⟩ false "Wallet2XYZ"
        "0.5" (.response true 200 sigBody) okOracles).error = none ∧
    (taxedV1HandleSubmit ⟨true, some "Wallet1", true⟩ false "Wallet2XYZ"
        "0.5" (.response true 200 sigBody) okOracles).lastSig =
      some "SIG123" ∧
    (taxedV1HandleSubmit ⟨true, some "Wallet1", true⟩ false "Wallet2XYZ"
        "0.5" (.response true 200 sigBody) okOracles).confirmCalls = 0 := by
  decide

/-- Claim C1 amended: on a Broadcasted response (truthy signature chain)
both networked TaxedSendCard variants treat the backend-reported
signature as the terminal identifier and skip signing, broadcasting, and
also the Confirming step — each declares success immediately, with zero
sign, send and confirmation calls. -/
theorem fast_path_confirming_amended :
    (∀ (w : Wallet) (isMainnet : Bool) (toAddress amountUi : String)
        (status : Nat) (body : BackendBody) (o : Oracles),
      (!w.connected || w.publicKey.isNone) = false →
      w.canSignTransaction = true →
      (!(o.jsNumber amountUi).isFinite || (o.jsNumber amountUi).le0) = false →
      (toAddress == "" || decide ((jsTrim toAddress).length < 8)) = false →
      strTruthy (sigChainV1 body) = true →
      taxedV1HandleSubmit w isMainnet toAddress amountUi
          (.response true status body) o =
        { error := none, lastSig := sigChainV1 body,
          logs := [⟨"Taxed send (" ++ modeLabel isMainnet ++ ")",
                    sigChainV1 body⟩],
          fetchCalls := 1, signCalls := 0, sendCalls := 0,
          confirmCalls := 0, sentTx := none }) ∧
    (∀ (burl wpk : Option String) (isMainnet : Bool)
        (toAddress amountUi : String) (status : Nat) (body : BackendBody)
        (o : Oracles),
      strTruthy burl = true → strTruthy wpk = true →
      (toAddress == "" || amountUi == "") = false →
      (!(o.jsNumber amountUi).isFinite || (o.jsNumber amountUi).le0) = false →
      strTruthy (sigChainV2 body) = true →
      taxedV2HandleSubmit burl wpk isMainnet toAddress amountUi
          (.response true status body) o =
        { error := none, lastSig := sigChainV2 body,
          logs := [⟨"Taxed send (" ++ modeLabel isMainnet ++ ")",
                    sigChainV2 body⟩],
          fetchCalls := 1, signCalls := 0, sendCalls := 0,
          confirmCalls := 0, sentTx := none }) := by
  constructor
  · intro w isMainnet toAddress amountUi status body o h1 h2 h3 h4 hsig
    simp only [taxedV1HandleSubmit, h1, h2, h3, h4, Bool.not_true,
      Bool.false_eq_true, if_false]
    simp [taxedV1TryBlock, hsig]
  · intro burl wpk isMainnet toAddress amountUi status body o hb hw hta h3
      hsig
    simp only [taxedV2HandleSubmit, hb, hw, hta, h3, Bool.not_true,
      Bool.false_eq_true, if_false]
    simp [taxedV2TryBlock, hsig]

/-- Claim C1 amended witness: the concrete Broadcasted runs of both
networked variants equal the immediate-success trace with signature
`SIG123` and zero confirmation calls. -/
theorem fast_path_confirming_amended_witness :
    strTruthy (sigChainV1 sigBody) = true ∧
    strTruthy (sigChainV2 sigBody) = true ∧
    taxedV1HandleSubmit ⟨true, some "Wallet1", true⟩ false "Wallet2XYZ"
        "0.5" (.response true 200 sigBody) okOracles =
      { error := none, lastSig := some "SIG123",
        logs := [⟨"Taxed send (devnet)", some "SIG123"⟩],
        fetchCalls := 1, signCalls := 0, sendCalls := 0, confirmCalls := 0,
        sentTx := none } ∧
    taxedV2HandleSubmit (some "http://backend") (some "WALLETPK") false
        "DestAddr1" "0.5" (.response true 200 sigBody) okOracles =
      { error := none, lastSig := some "SIG123",
        logs := [⟨"Taxed send (devnet)", some "SIG123"⟩],
        fetchCalls := 1, signCalls := 0, sendCalls := 0, confirmCalls := 0,
        sentTx := none } := by
  refine ⟨by decide, by decide, ?_, ?_⟩
  · have h := fast_path_confirming_amended.1 ⟨true, some "Wallet1", true⟩
      false "Wallet2XYZ" "0.5" 200 sigBody okOracles (by decide) (by decide)
      (by decide) (by decide) (by decide)
    simpa [sigBody, sigChainV1, jsOr, strTruthy, emptyBody, modeLabel] using h
  · have h := fast_path_confirming_amended.2 (some "http://backend")
      (some "WALLETPK") false "DestAddr1" "0.5" 200 sigBody okOracles
      (by decide) (by decide) (by decide) (by decide) (by decide)
    simpa [sigBody, sigChainV2, jsOr, strTruthy, emptyBody, modeLabel] using h

/-- Claim C3 counterexample: the network assigned `NETSIG` (the raw send
succeeded) and the confirmation wait then failed, yet the resulting
failure retains no signature anywhere — `lastSig` is `none` and the
single log entry carries no signature, contradicting the claim that the
failure payload still carries the obtained signature. -/
theorem confirm_timeout_signature_counterexample :
    (purchaseHandleSubmit ⟨true, some "W1", true⟩ "1"
        (.response true 200 backendTxBody) timeoutOracles).sendCalls = 1 ∧
    (purchaseHandleSubmit ⟨true, some "W1", true⟩ "1"
        (.response true 200 backendTxBody) timeoutOracles).confirmCalls = 1 ∧
    (purchaseHandleSubmit ⟨true, some "W1", true⟩ "1"
        (.response true 200 backendTxBody) timeoutOracles).error =
      some "Transaction was not confirmed" ∧
    (purchaseHandleSubmit ⟨true, some "W1", true⟩ "1"
        (.response true 200 backendTxBody) timeoutOracles).lastSig = none ∧
    (purchaseHandleSubmit ⟨true, some "W1", true⟩ "1"
        (.response true 200 backendTxBody) timeoutOracles).logs =
      [⟨"0% purchase failed: Transaction was not confirmed", none⟩] := by
  decide

/-- Claim C3 amended: when the confirmation wait fails, PurchaseCard
produces a Failure carrying only the thrown error message; the obtained
signature is discarded — it appears neither in the error state, nor in
the last-signature state, nor in the log entry. -/
theorem confirm_timeout_amended (w : Wallet) (amount : String)
    (status : Nat) (body : BackendBody) (o : Oracles) (tx0 signed : Tx)
    (sigVal m : String)
    (h1 : (!w.connected || w.publicKey.isNone) = false)
    (h2 : w.canSignTransaction = true)
    (h3 : (!(o.jsNumber amount).isFinite || (o.jsNumber amount).le0) = false)
    (hok : body.ok = true) (htx : strTruthy body.transaction = true)
    (hleg : o.legacyFrom (o.bufferFromBase64 (body.transaction.getD "")) =
      .ok tx0)
    (hsg : o.signTransaction { tx0 with feePayer := w.publicKey } = .ok signed)
    (hsend : o.sendRawTransaction (o.serializeTx signed) = .ok sigVal)
    (hconf : o.confirmTransaction sigVal = .error m) :
    purchaseHandleSubmit w amount (.response true status body) o =
      { error := some (catchMsg m "0% purchase failed."), lastSig := none,
        logs := [⟨"0% purchase failed: " ++ catchMsg m "0% purchase failed.",
                  none⟩],
        fetchCalls := 1, signCalls := 1, sendCalls := 1, confirmCalls := 1,
        sentTx := some { tx0 with feePayer := w.publicKey } } := by
  simp only [purchaseHandleSubmit, h1, h2, h3, Bool.not_true,
    Bool.false_eq_true, if_false]
  simp only [purchaseTryBlock, Bool.not_true, Bool.false_eq_true, if_false,
    hok, htx, Bool.not_false, Bool.false_or, hleg, hsg, hsend, hconf]
  simp [purchaseFail]

/-- Claim C3 amended witness: the concrete timed-out run equals the
signature-free failure trace. -/
theorem confirm_timeout_amended_witness :
    timeoutOracles.confirmTransaction "NETSIG" =
      .error "Transaction was not confirmed" ∧
    purchaseHandleSubmit ⟨true, some "W1", true⟩ "1"
        (.response true 200 backendTxBody) timeoutOracles =
      { error := some "Transaction was not confirmed", lastSig := none,
        logs := [⟨"0% purchase failed: Transaction was not confirmed",
                  none⟩],
        fetchCalls := 1, signCalls := 1, sendCalls := 1, confirmCalls := 1,
        sentTx := some ⟨some "W1", [0]⟩ } := by
  refine ⟨rfl, ?_⟩
  have h := confirm_timeout_amended ⟨true, some "W1", true⟩ "1" 200
    backendTxBody timeoutOracles ⟨none, [0]⟩ ⟨some "W1", [0]⟩ "NETSIG"
    "Transaction was not confirmed" (by decide) (by decide) (by decide)
    rfl (by decide) rfl rfl rfl rfl
  simpa [catchMsg] using h

/-- Claim C9 counterexample: in networked variant 2, with connected
wallet `WALLETPK` and an Unsigned (transaction-envelope) response, the
decoded transaction is handed to `wallet.sendTransaction` with its fee
payer still `BACKEND` — the handler never sets the fee payer to the
wallet's address, contradicting the claim for this cited slow path. -/
theorem v2_fee_payer_counterexample :
    (taxedV2HandleSubmit (some "http://backend") (some "WALLETPK") false
        "DestAddr1" "1" (.response true 200 backendTxBody)
        backendPayerOracles).sentTx = some ⟨some "BACKEND", [1, 2]⟩ ∧
    (taxedV2HandleSubmit (some "http://backend") (some "WALLETPK") false
        "DestAddr1" "1" (.response true 200 backendTxBody)
        backendPayerOracles).lastSig = some "NETSIG" ∧
    some "BACKEND" ≠ some "WALLETPK" := by
  decide

/-- Claim C9 amended: on the Unsigned slow path, PurchaseCard (and the
first TaxedSendCard variants) set the decoded transaction's fee payer to
the connected wallet's address before `signTransaction` is called; the
second networked TaxedSendCard variant instead hands the decoded
transaction to `wallet.sendTransaction` with its fee-payer field
unchanged. -/
theorem fee_payer_amended :
    (∀ (w : Wallet) (amount : String) (status : Nat) (body : BackendBody)
        (o : Oracles) (tx0 : Tx),
      (!w.connected || w.publicKey.isNone) = false →
      w.canSignTransaction = true →
      (!(o.jsNumber amount).isFinite || (o.jsNumber amount).le0) = false →
      body.ok = true → strTruthy body.transaction = true →
      o.legacyFrom (o.bufferFromBase64 (body.transaction.getD "")) =
        .ok tx0 →
      (purchaseHandleSubmit w amount (.response true status body) o).sentTx =
        some { tx0 with feePayer := w.publicKey }) ∧
    (∀ (burl wpk : Option String) (isMainnet : Bool)
        (toAddress amountUi : String) (status : Nat) (body : BackendBody)
        (o : Oracles) (raw : List Nat) (tx0 : Tx),
      strTruthy burl = true → strTruthy wpk = true →
      (toAddress == "" || amountUi == "") = false →
      (!(o.jsNumber amountUi).isFinite || (o.jsNumber amountUi).le0) = false →
      strTruthy (sigChainV2 body) = false →
      strTruthy (txChain body) = true →
      o.atobBytes ((txChain body).getD "") = .ok raw →
      o.legacyFrom raw = .ok tx0 →
      (taxedV2HandleSubmit burl wpk isMainnet toAddress amountUi
          (.response true status body) o).sentTx = some tx0) := by
  constructor
  · intro w amount status body o tx0 h1 h2 h3 hok htx hleg
    simp only [purchaseHandleSubmit, h1, h2, h3, Bool.not_true,
      Bool.false_eq_true, if_false]
    simp only [purchaseTryBlock, Bool.not_true, Bool.false_eq_true,
      if_false, hok, htx, Bool.not_false, Bool.false_or, hleg]
    rcases hsg : o.signTransaction { tx0 with feePayer := w.publicKey } with
      m | signed
    · simp [hsg, purchaseFail]
    · rcases hsend : o.sendRawTransaction (o.serializeTx signed) with
        m2 | sigVal
      · simp [hsg, hsend, purchaseFail]
      · rcases hconf : o.confirmTransaction sigVal with m3 | u
        · simp [hsg, hsend, hconf, purchaseFail]
        · simp [hsg, hsend, hconf]
  · intro burl wpk isMainnet toAddress amountUi status body o raw tx0
      hb hw hta h3 hsig htx hatob hleg
    simp only [taxedV2HandleSubmit, hb, hw, hta, h3, Bool.not_true,
      Bool.false_eq_true, if_false]
    simp only [taxedV2TryBlock, Bool.not_true, Bool.false_eq_true, if_false,
      hsig, htx, Bool.not_false, Bool.not_true, if_true, hatob, hleg]
    rcases hsend : o.sendTransaction tx0 with m | sigVal
    · simp [hsend, taxedFail]
    · simp [hsend]

/-- Claim C9 amended witness: PurchaseCard's slow path hands the wallet a
transaction whose fee payer is the wallet key `W1`, while variant 2
hands over the backend's fee payer unchanged. -/
theorem fee_payer_amended_witness :
    strTruthy backendTxBody.transaction = true ∧
    (purchaseHandleSubmit ⟨true, some "W1", true⟩ "1"
        (.response true 200 backendTxBody) okOracles).sentTx =
      some ⟨some "W1", [0]⟩ ∧
    (taxedV2HandleSubmit (some "http://backend") (some "WALLETPK") false
        "DestAddr1" "1" (.response true 200 backendTxBody)
        backendPayerOracles).sentTx = some ⟨some "BACKEND", [1, 2]⟩ := by
  refine ⟨by decide, ?_, ?_⟩
  · exact fee_payer_amended.1 ⟨true, some "W1", true⟩ "1" 200 backendTxBody
      okOracles ⟨none, [0]⟩ (by decide) (by decide) (by decide) rfl
      (by decide) rfl
  · exact fee_payer_amended.2 (some "http://backend") (some "WALLETPK")
      false "DestAddr1" "1" 200 backendTxBody backendPayerOracles [0]
      ⟨some "BACKEND", [1, 2]⟩ (by decide) (by decide) (by decide)
      (by decide) (by decide) (by decide) rfl rfl

/-- Claim C2 counterexample: with a connected, signing-capable wallet
and an amount that does not parse, PurchaseCard returns the terminal
InvalidInput failure but performs zero `logAction` appends — not exactly
one append on every path. -/
theorem invalid_amount_zero_appends_counterexample :
    (purchaseHandleSubmit ⟨true, some "W1", true⟩ "abc"
        (.response true 200 emptyBody) nanOracles).logs = [] ∧
    (purchaseHandleSubmit ⟨true, some "W1", true⟩ "abc"
        (.response true 200 emptyBody) nanOracles).error =
      some "Amount must be a positive number." := by
  decide

/-- Claim C2 amended: every invocation of the two cited handlers yields
exactly one terminal outcome (an error state, or a success signature,
never both or neither), and performs exactly one `logAction` append on
every path except the silent local-validation failures — the
amount-validation branch (and, for the taxed card, the empty-recipient
branch), which append nothing. -/
theorem single_result_append_amended (w : Wallet)
    (toAddress amount : String) (f : FetchOutcome) (o : Oracles) :
    ((((purchaseHandleSubmit w amount f o).error.isSome = true ∧
        (purchaseHandleSubmit w amount f o).lastSig = none) ∨
      ((purchaseHandleSubmit w amount f o).error = none ∧
        (purchaseHandleSubmit w amount f o).lastSig.isSome = true)) ∧
      (purchaseHandleSubmit w amount f o).logs.length =
        (if !w.connected || w.publicKey.isNone then 1
         else if !w.canSignTransaction then 1
         else if !(o.jsNumber amount).isFinite || (o.jsNumber amount).le0
           then 0 else 1)) ∧
    ((((taxedHandleSubmit w toAddress amount f o).error.isSome = true ∧
        (taxedHandleSubmit w toAddress amount f o).lastSig = none) ∨
      ((taxedHandleSubmit w toAddress amount f o).error = none ∧
        (taxedHandleSubmit w toAddress amount f o).lastSig.isSome = true)) ∧
      (taxedHandleSubmit w toAddress amount f o).logs.length =
        (if !w.connected || w.publicKey.isNone then 1
         else if !w.canSignTransaction then 1
         else if jsTrim toAddress == "" then 0
         else if !(o.jsNumber amount).isFinite || (o.jsNumber amount).le0
           then 0 else 1)) := by
  constructor
  · constructor
    · unfold purchaseHandleSubmit purchaseTryBlock purchaseFail
      repeat' split
      all_goals simp
    · unfold purchaseHandleSubmit purchaseTryBlock purchaseFail
      repeat' split
      all_goals simp
  · constructor
    · unfold taxedHandleSubmit taxedTryBlock taxedFail
      repeat' split
      all_goals simp
    · unfold taxedHandleSubmit taxedTryBlock taxedFail
      repeat' split
      all_goals simp

end Aksol
